import Mathlib

/-!
Shallow embedding of the `clcat` gossip node (sources: `src/main.rs`,
`src/error.rs`, `src/cli.rs`) together with theorems settling the spec
claims about it.

Conventions of the embedding:
* Rust machine integers are `Nat` with explicit `% 2 ^ w` where overflow
  matters (the SipHash embedding below).
* Fallible Rust code returns `Except` / `Option`.
* A Rust `todo!()` (which panics, producing no value) is modelled as the
  `none` branch of an `Option`-valued function.
* The external libp2p/lighthouse capabilities the core consumes are
  embedded only as far as the claims need them; every such definition is
  marked `Modelled from the spec:` in its doc comment.
-/

/- ---------------------------------------------------------------------
   src/error.rs
--------------------------------------------------------------------- -/

/-- `src/error.rs`: `pub const ERROR_CLIENT_INIT: u8 = 1u8;`. -/
def ERROR_CLIENT_INIT : Nat := 1

/-- `src/error.rs`: `pub enum InnerClCatError {}` — an enum with no
variants, hence uninhabited. -/
inductive InnerClCatError : Type
  deriving DecidableEq

/-- `src/error.rs`: `impl fmt::Display for InnerClCatError`. The body is
`match self { _ => todo!() }`; since the enum has no variants the match is
vacuous, embedded as elimination from the empty type. -/
def InnerClCatError.display : InnerClCatError → String :=
  fun e => nomatch e

/-- `src/error.rs`: `pub struct ClCatError { code: u8, msg: String,
inner: Option<InnerClCatError> }`. -/
structure ClCatError : Type where
  code : Nat
  msg : String
  inner : Option InnerClCatError

/-- `src/error.rs`: `ClCatError::new`. -/
def ClCatError.new (code : Nat) (msg : String) (inner : Option InnerClCatError) : ClCatError :=
  { code := code, msg := msg, inner := inner }

/-- `src/error.rs`: `impl fmt::Display for ClCatError` —
`Some(e) => "E{code}: {msg} due to {e}"`, `None => "E{code}: {msg}"`. -/
def ClCatError.display (e : ClCatError) : String :=
  match e.inner with
  | some i => "E" ++ toString e.code ++ ": " ++ e.msg ++ " due to " ++ i.display
  | none => "E" ++ toString e.code ++ ": " ++ e.msg

/-- `src/error.rs`: `impl Error for ClCatError { fn source(&self) ->
Option<&(dyn Error + 'static)> { self.inner.as_ref().map(|x| x as &dyn Error) } }`. -/
def ClCatError.source (e : ClCatError) : Option InnerClCatError :=
  e.inner.map (fun x => x)

/-- A malformed-multiaddress parse error from the external `libp2p`
crate; its payload is the parser's description string. -/
inductive MultiaddrError : Type
  | invalid (desc : String)
  deriving DecidableEq

/-- `src/error.rs`: `impl From<libp2p::multiaddr::Error> for ClCatError`.
The body is `todo!()`, which panics and never produces a `ClCatError`
value; the panic is modelled as `none`. -/
def clCatErrorFromMultiaddrError : MultiaddrError → Option ClCatError :=
  fun _ => none

/-- The coded message the process prints when initialization fails on a
malformed address: `main` applies the `?` operator, which routes the
error through `From<libp2p::multiaddr::Error> for ClCatError` and then
displays the result. Because that `From` impl is `todo!()` (a panic), no
`ClCatError` value — and hence no `E<code>: <msg>` line — is ever
produced. -/
def initFailureOutput (e : MultiaddrError) : Option String :=
  (clCatErrorFromMultiaddrError e).map ClCatError.display

/- ---------------------------------------------------------------------
   src/cli.rs
--------------------------------------------------------------------- -/

/-- A libp2p multiaddress, kept as its textual form. -/
def Multiaddr : Type := String

instance : DecidableEq Multiaddr := fun a b => String.decEq a b

/-- `src/cli.rs`: `pub struct Opts { listen_address: Vec<Multiaddr>,
dial_address: Vec<Multiaddr> }`. -/
structure Opts : Type where
  listen_address : List Multiaddr
  dial_address : List Multiaddr

/- ---------------------------------------------------------------------
   src/main.rs — fork digests and gossip topics
--------------------------------------------------------------------- -/

/-- The closed fork-name set from the external `types` crate, as matched
exhaustively by `impl From<ForkName> for ForkDigest` in `src/main.rs`. -/
inductive ForkName : Type
  | base
  | altair
  | merge
  | capella
  deriving DecidableEq

/-- `src/main.rs`: `pub struct ForkDigest(pub [u8; 4]);`. -/
structure ForkDigest : Type where
  val : List Nat
  deriving DecidableEq

/-- `src/main.rs`: `impl From<ForkName> for ForkDigest` — the closed
four-entry lookup table. -/
def forkDigestFrom : ForkName → ForkDigest
  | .base => ⟨[181, 48, 63, 42]⟩
  | .altair => ⟨[175, 202, 171, 160]⟩
  | .merge => ⟨[74, 38, 197, 139]⟩
  | .capella => ⟨[187, 164, 218, 150]⟩

/-- `src/main.rs`: `fn default_fork() -> ForkName { ForkName::Capella }`. -/
def default_fork : ForkName := .capella

/-- `src/main.rs`: `impl Default for ForkDigest` — `default_fork().into()`. -/
def ForkDigest.default : ForkDigest := forkDigestFrom default_fork

/-- Topic kinds from the external `lighthouse_network` crate, as far as
the fork-dependent core list uses them. -/
inductive GossipKind : Type
  | beacon_block
  | beacon_aggregate_and_proof
  | voluntary_exit
  | proposer_slashing
  | attester_slashing
  | signed_contribution_and_proof
  | bls_to_execution_change
  deriving DecidableEq

/-- Modelled from the spec: `core_topics_to_subscribe` lives in the
external `lighthouse_network` crate, not in this repository. Spec §4.3:
"for each topic kind in a fixed, protocol-defined ordered list, construct
a Topic"; the list is a pure function of the fork name, fixed and closed.
The concrete kinds follow lighthouse's core topic list: the phase-0 core
topics for every fork, the sync-committee contribution topic from Altair
on, and the BLS-to-execution-change topic from Capella on. -/
def core_topics_to_subscribe : ForkName → List GossipKind
  | .base =>
      [.beacon_block, .beacon_aggregate_and_proof, .voluntary_exit,
       .proposer_slashing, .attester_slashing]
  | .altair =>
      [.beacon_block, .beacon_aggregate_and_proof, .voluntary_exit,
       .proposer_slashing, .attester_slashing, .signed_contribution_and_proof]
  | .merge =>
      [.beacon_block, .beacon_aggregate_and_proof, .voluntary_exit,
       .proposer_slashing, .attester_slashing, .signed_contribution_and_proof]
  | .capella =>
      [.beacon_block, .beacon_aggregate_and_proof, .voluntary_exit,
       .proposer_slashing, .attester_slashing, .signed_contribution_and_proof,
       .bls_to_execution_change]

/-- The single wire encoding scheme (`GossipEncoding::default()` in
`lighthouse_network`). -/
inductive GossipEncoding : Type
  | ssz_snappy
  deriving DecidableEq

/-- `GossipEncoding::default()`. -/
def GossipEncoding.default : GossipEncoding := .ssz_snappy

/-- `lighthouse_network::GossipTopic`: {kind, encoding, fork digest}. -/
structure GossipTopic : Type where
  kind : GossipKind
  encoding : GossipEncoding
  fork_digest : ForkDigest
  deriving DecidableEq

/-- `GossipTopic::new(kind, encoding, fork_digest)`. -/
def GossipTopic.new (kind : GossipKind) (encoding : GossipEncoding) (fork_digest : ForkDigest) : GossipTopic :=
  { kind := kind, encoding := encoding, fork_digest := fork_digest }

/-- `src/main.rs`: `fn gossipsub_topics() -> Vec<GossipTopic>` — maps
every core topic kind of the (fixed) default fork to a fully-qualified
topic carrying the default fork digest. -/
def gossipsub_topics : List GossipTopic :=
  (core_topics_to_subscribe default_fork).map
    (fun kind => GossipTopic.new kind GossipEncoding.default ForkDigest.default)

/-- `gossipsub_topics` generalized over the fork name, to state the
fork-indexed claims: the same map with the digest looked up for the given
fork. `gossipsub_topics = topics_for default_fork` holds definitionally. -/
def topics_for (fork : ForkName) : List GossipTopic :=
  (core_topics_to_subscribe fork).map
    (fun kind => GossipTopic.new kind GossipEncoding.default (forkDigestFrom fork))

/- ---------------------------------------------------------------------
   src/main.rs — message ids (DefaultHasher = SipHash-1-3, zero key)
--------------------------------------------------------------------- -/

/-- Reduce modulo `2 ^ 64` (`u64` wrap-around). -/
def wrap64 (x : Nat) : Nat := x % 2 ^ 64

/-- `u64` left-rotation by `n` bits (for `x < 2 ^ 64`, `0 < n < 64`). -/
def rotl64 (x n : Nat) : Nat := (x * 2 ^ n) % 2 ^ 64 + x / 2 ^ (64 - n)

/-- The four 64-bit lanes of a SipHash state. -/
structure SipState : Type where
  v0 : Nat
  v1 : Nat
  v2 : Nat
  v3 : Nat

/-- One SipRound of the SipHash permutation. -/
def sipRound (s : SipState) : SipState :=
  let v0 := wrap64 (s.v0 + s.v1)
  let v1 := rotl64 s.v1 13
  let v1 := v1 ^^^ v0
  let v0 := rotl64 v0 32
  let v2 := wrap64 (s.v2 + s.v3)
  let v3 := rotl64 s.v3 16
  let v3 := v3 ^^^ v2
  let v0 := wrap64 (v0 + v3)
  let v3 := rotl64 v3 21
  let v3 := v3 ^^^ v0
  let v2 := wrap64 (v2 + v1)
  let v1 := rotl64 v1 17
  let v1 := v1 ^^^ v2
  let v2 := rotl64 v2 32
  ⟨v0, v1, v2, v3⟩

/-- SipHash-1-3 message-block absorption: xor into `v3`, one round, xor
into `v0`. -/
def sipCompress (s : SipState) (m : Nat) : SipState :=
  let s1 := sipRound { s with v3 := s.v3 ^^^ m }
  { s1 with v0 := s1.v0 ^^^ m }

/-- Little-endian value of a byte list (first byte least significant). -/
def le64 (bytes : List Nat) : Nat :=
  bytes.foldr (fun b acc => b % 256 + 256 * acc) 0

/-- Absorb all complete 8-byte blocks, returning the final state and the
remaining tail bytes. -/
def sipBlocks : SipState → List Nat → SipState × List Nat
  | s, b0 :: b1 :: b2 :: b3 :: b4 :: b5 :: b6 :: b7 :: rest =>
      sipBlocks (sipCompress s (le64 [b0, b1, b2, b3, b4, b5, b6, b7])) rest
  | s, rest => (s, rest)

/-- SipHash-1-3 with the zero key over a byte stream, exactly the
algorithm `std::collections::hash_map::DefaultHasher` computes for the
byte sequence written into it: zero-key initial state, one compression
round per 8-byte little-endian block, a final block carrying
`len mod 256` in the top byte, then `v2 ^= 0xff` and three finalization
rounds. -/
def siphash13 (bytes : List Nat) : Nat :=
  let s0 : SipState :=
    ⟨0x736f6d6570736575, 0x646f72616e646f6d, 0x6c7967656e657261, 0x7465646279746573⟩
  let sb := sipBlocks s0 bytes
  let b := (bytes.length % 256) * 2 ^ 56 + le64 sb.2
  let s2 := sipCompress sb.1 b
  let s3 := sipRound (sipRound (sipRound { s2 with v2 := s2.v2 ^^^ 255 }))
  ((s3.v0 ^^^ s3.v1) ^^^ s3.v2) ^^^ s3.v3

/-- The eight little-endian bytes of a `usize` (64-bit platform), the
length marker `Hash for [u8]` writes before the slice's bytes. -/
def usizeBytes (n : Nat) : List Nat :=
  [n % 256, n / 2 ^ 8 % 256, n / 2 ^ 16 % 256, n / 2 ^ 24 % 256,
   n / 2 ^ 32 % 256, n / 2 ^ 40 % 256, n / 2 ^ 48 % 256, n / 2 ^ 56 % 256]

/-- `libp2p::gossipsub::Message`: {source, data, sequence_number, topic};
peer ids are numbered, payload bytes are `Nat` bytes, the topic is its
hash string. -/
structure GossipMessage : Type where
  source : Option Nat
  data : List Nat
  sequence_number : Option Nat
  topic : String

/-- `src/main.rs`: `message_id_fn` — feed `message.data` into a fresh
`DefaultHasher` and render `finish()` in decimal. `Hash for Vec<u8>`
writes the length as a `usize` prefix and then the raw bytes, and
`DefaultHasher` is SipHash-1-3 with the zero key, so the id is the
decimal string of `siphash13` over that stream. Only the `data` field is
read. -/
def message_id_fn (m : GossipMessage) : String :=
  toString (siphash13 (usizeBytes m.data.length ++ m.data))

/- ---------------------------------------------------------------------
   src/main.rs — gossipsub configuration and behaviour
--------------------------------------------------------------------- -/

/-- `libp2p::gossipsub::ValidationMode` (closed set from the crate). -/
inductive ValidationMode : Type
  | strict
  | permissive
  | anonymous
  | noValidation
  deriving DecidableEq

/-- The gossipsub configuration fields `src/main.rs` sets explicitly. -/
structure GossipsubConfig : Type where
  heartbeat_interval_secs : Nat
  validation_mode : ValidationMode
  deriving DecidableEq

/-- `src/main.rs`: `gossipsub::ConfigBuilder::default()
.heartbeat_interval(Duration::from_secs(10))
.validation_mode(gossipsub::ValidationMode::Strict)...build()`. -/
def gossipsub_config : GossipsubConfig :=
  { heartbeat_interval_secs := 10, validation_mode := .strict }

/-- `libp2p::gossipsub::MessageAuthenticity` (closed set from the crate). -/
inductive MessageAuthenticity : Type
  | signed
  | author
  | randomAuthor
  | anonymous
  deriving DecidableEq

/-- `src/main.rs`: `gossipsub::Behaviour::new(
gossipsub::MessageAuthenticity::Signed(id_keys), ...)` — outbound
messages are signed with the local identity. -/
def message_authenticity : MessageAuthenticity := .signed

/-- A raw inbound gossip frame as it reaches the router boundary, before
validation: whether its signature verifies against the declared
publisher, the sending peer, the topic, and the payload bytes. -/
structure InboundFrame : Type where
  signatureValid : Bool
  sender : Nat
  topic : String
  data : List Nat

/-- Modelled from the spec: signature validation happens inside the
external gossipsub library, not in this repository. Spec §4.5: "Validation
mode is strict: every inbound message must carry a valid signature
traceable to a declared publisher identity; messages failing this check
are dropped silently at the router boundary (never surfaced to the
relay/logging layer)." Under `Strict` an unsigned or badly signed frame
yields no message; the non-strict modes accept regardless. -/
def router_on_receive (cfg : GossipsubConfig) (frame : InboundFrame) : Option GossipMessage :=
  match cfg.validation_mode with
  | .strict =>
      if frame.signatureValid then
        some { source := some frame.sender, data := frame.data,
               sequence_number := none, topic := frame.topic }
      else
        none
  | _ =>
      some { source := some frame.sender, data := frame.data,
             sequence_number := none, topic := frame.topic }

/- ---------------------------------------------------------------------
   src/main.rs — explicit peers and the event loop
--------------------------------------------------------------------- -/

/-- Modelled from the spec: `Behaviour::add_explicit_peer` lives in the
external gossipsub library; spec §4.5 says the router maintains an
explicit-peer set and "adding an already-present peer ... is a no-op".
Set insertion. -/
def add_explicit_peer (s : Finset Nat) (p : Nat) : Finset Nat :=
  insert p s

/-- Modelled from the spec: `Behaviour::remove_explicit_peer` lives in
the external gossipsub library; spec §4.5 says "removing an absent one is
a no-op". Set removal. -/
def remove_explicit_peer (s : Finset Nat) (p : Nat) : Finset Nat :=
  s.erase p

/-- The mutable state the event loop touches: the router's explicit-peer
set. -/
structure SwarmState : Type where
  explicitPeers : Finset Nat

/-- The events the `select!` loop in `main` dispatches on: a stdin line
(`Result<String, io::Error>`, error rendered as its description), the two
mDNS discovery events, an accepted gossipsub message, a newly bound
listen address, and the catch-all `_ => {}` arm. -/
inductive LoopEvent : Type
  | stdinLine (line : Except String String)
  | mdnsDiscovered (peers : List Nat)
  | mdnsExpired (peers : List Nat)
  | gossipsubMessage (propagation_source : Nat) (message_id : String) (data : List Nat)
  | newListenAddr (addr : String)
  | otherEvent

/-- What one pass over the topic list in the stdin arm produces: the
topics a publish was attempted on, the log lines emitted, and whether the
arm unwound out of the loop. -/
structure PublishPass : Type where
  attempts : List GossipTopic
  logs : List String
  exits : Bool
  deriving DecidableEq

/-- `src/main.rs` stdin arm, lines 163–170: for each topic,
`line.as_ref()?` is evaluated in argument position — if the stdin read
failed, the `?` operator propagates the error out of `main`'s loop (via
the `todo!()` conversion `From<&std::io::Error> for ClCatError`, which
panics), so no publish happens and the arm exits; otherwise the line is
published to the topic and a publish error is logged
(`error!("Publish error: {e:?}")`) without stopping the iteration. -/
def stdinBranch (pub : GossipTopic → String → Except String String)
    (line : Except String String) : List GossipTopic → PublishPass
  | [] => ⟨[], [], false⟩
  | t :: ts =>
    match line with
    | .error _ => ⟨[], [], true⟩
    | .ok s =>
      let r := stdinBranch pub line ts
      match pub t s with
      | .error e => ⟨t :: r.attempts, ("Publish error: " ++ e) :: r.logs, r.exits⟩
      | .ok _ => ⟨t :: r.attempts, r.logs, r.exits⟩

/-- Shallow stand-in for `String::from_utf8_lossy` in the
received-message log line; the exact decoding is display-only and no
claim depends on it, so the bytes are rendered with `toString`. -/
def from_utf8_lossy (data : List Nat) : String :=
  toString data

/-- The outcome of dispatching one event: the successor state, the log
lines, the publish attempts, and whether the handler unwound out of the
loop. -/
structure StepResult : Type where
  state : SwarmState
  logs : List String
  attempts : List GossipTopic
  exits : Bool

/-- One iteration of the `loop { select! { ... } }` in `main`
(`src/main.rs` lines 161–199), parameterized by the swarm's publish
primitive: the stdin arm fans the line out over `gossipsub_topics()`;
mDNS `Discovered`/`Expired` add/remove each listed peer to/from the
router's explicit set and log it; an accepted gossipsub message and a new
listen address are logged; every other event is dropped by the `_ => {}`
arm. Only the stdin arm contains a `?`, so only it can unwind. -/
def loopStep (pub : GossipTopic → String → Except String String)
    (st : SwarmState) (ev : LoopEvent) : StepResult :=
  match ev with
  | .stdinLine line =>
    let r := stdinBranch pub line gossipsub_topics
    ⟨st, r.logs, r.attempts, r.exits⟩
  | .mdnsDiscovered peers =>
    ⟨⟨peers.foldl add_explicit_peer st.explicitPeers⟩,
      peers.map (fun p => "mDNS discovered a new peer: " ++ toString p), [], false⟩
  | .mdnsExpired peers =>
    ⟨⟨peers.foldl remove_explicit_peer st.explicitPeers⟩,
      peers.map (fun p => "mDNS discover peer has expired: " ++ toString p), [], false⟩
  | .gossipsubMessage peer_id id data =>
    ⟨st, ["Got message: '" ++ from_utf8_lossy data ++ "' with id: " ++ id
            ++ " from peer: " ++ toString peer_id], [], false⟩
  | .newListenAddr addr =>
    ⟨st, ["Local node is listening on " ++ addr], [], false⟩
  | .otherEvent => ⟨st, [], [], false⟩

/-- Events the loop receives for an inbound frame: the external router
validates first (`router_on_receive`), and only an accepted message
surfaces as a `gossipsub::Event::Message`; a dropped frame produces no
event at all. -/
def inboundEvents (frame : InboundFrame) : List LoopEvent :=
  match router_on_receive gossipsub_config frame with
  | some m => [.gossipsubMessage frame.sender (message_id_fn m) m.data]
  | none => []

/-- All log lines the loop emits for an inbound frame. -/
def receivedMessageLogs (pub : GossipTopic → String → Except String String)
    (st : SwarmState) (frame : InboundFrame) : List String :=
  (inboundEvents frame).flatMap (fun ev => (loopStep pub st ev).logs)

/-- The per-topic publish-error log lines the stdin arm emits for a
successfully read line: one line per topic whose publish failed, in topic
order. -/
def publishErrorLogs (pub : GossipTopic → String → Except String String)
    (s : String) (topics : List GossipTopic) : List String :=
  topics.filterMap (fun t =>
    match pub t s with
    | .error e => some ("Publish error: " ++ e)
    | .ok _ => none)

/- ---------------------------------------------------------------------
   src/main.rs — listen/dial setup
--------------------------------------------------------------------- -/

/-- The two default listen addresses `main` binds when no addresses are
given: `/ip4/0.0.0.0/udp/0/quic-v1` (ephemeral QUIC) and
`/ip4/0.0.0.0/tcp/0` (ephemeral TCP). -/
def defaultListenAddrs : List Multiaddr :=
  ["/ip4/0.0.0.0/udp/0/quic-v1", "/ip4/0.0.0.0/tcp/0"]

/-- `src/main.rs` lines 145–158: if both `opts.listen_address` and
`opts.dial_address` are empty, listen on the two default ephemeral
addresses and dial nothing; otherwise listen on exactly the given listen
addresses and dial exactly the given dial addresses. Returns
(addresses listened on, addresses dialled), in program order. -/
def setupActions (opts : Opts) : List Multiaddr × List Multiaddr :=
  if opts.listen_address.isEmpty && opts.dial_address.isEmpty then
    (defaultListenAddrs, [])
  else
    (opts.listen_address, opts.dial_address)

/- ---------------------------------------------------------------------
   Helper lemmas
--------------------------------------------------------------------- -/

/-- On a successfully read line the stdin arm attempts every topic in
order, logs exactly the failing publishes, and does not unwind. -/
theorem stdinBranch_ok_line (pub : GossipTopic → String → Except String String)
    (s : String) (topics : List GossipTopic) :
    stdinBranch pub (.ok s) topics = ⟨topics, publishErrorLogs pub s topics, false⟩ := by
  induction topics with
  | nil => rfl
  | cons t ts ih =>
    simp only [stdinBranch, ih, publishErrorLogs, List.filterMap_cons]
    cases h : pub t s <;> simp [h, publishErrorLogs]

/- ---------------------------------------------------------------------
   Claim theorems
--------------------------------------------------------------------- -/

/-- C1 (counterexample): the claim says an I/O error while reading a line
from stdin does not cause the loop to exit; on the code it does. With any
publish primitive, dispatching a stdin event whose read failed makes the
handler unwind out of the loop (`line.as_ref()?` propagates on the first
topic iteration), so `exits` is `true`. -/
theorem stdin_error_unwinds_loop :
    (loopStep (fun _ _ => Except.ok "id") ⟨∅⟩
        (.stdinLine (.error "stdin read failed"))).exits = true := rfl

/-- C1 (amended): every error arising in the event loop other than a
failed stdin read is caught and logged in place and the loop continues;
the only event whose handler can unwind out of the loop is a stdin line
whose read returned an I/O error. -/
theorem loop_exit_only_on_stdin_error
    (pub : GossipTopic → String → Except String String)
    (st : SwarmState) (ev : LoopEvent)
    (h : (loopStep pub st ev).exits = true) :
    ∃ e, ev = .stdinLine (.error e) := by
  cases ev with
  | stdinLine line =>
    cases line with
    | error e => exact ⟨e, rfl⟩
    | ok s => simp [loopStep, stdinBranch_ok_line] at h
  | mdnsDiscovered peers => simp [loopStep] at h
  | mdnsExpired peers => simp [loopStep] at h
  | gossipsubMessage a b c => simp [loopStep] at h
  | newListenAddr a => simp [loopStep] at h
  | otherEvent => simp [loopStep] at h

/-- Witness for C1 (amended) at a concrete exiting step. -/
theorem loop_exit_only_on_stdin_error_witness :
    ∃ e, (LoopEvent.stdinLine (.error "broken pipe")) = LoopEvent.stdinLine (.error e) :=
  loop_exit_only_on_stdin_error (fun _ _ => Except.ok "id") ⟨∅⟩
    (.stdinLine (.error "broken pipe")) rfl

/-- C2: for every successfully read stdin line, exactly one publish is
attempted per resolved topic (all of `gossipsub_topics`, in order), each
failing publish is logged without aborting the attempts to the remaining
topics, the state is unchanged, and the handler does not unwind — also
when every publish fails, as with zero connected peers. -/
theorem publish_fanout_logs_and_continues
    (pub : GossipTopic → String → Except String String)
    (st : SwarmState) (s : String) :
    loopStep pub st (.stdinLine (.ok s)) =
      ⟨st, publishErrorLogs pub s gossipsub_topics, gossipsub_topics, false⟩ := by
  simp [loopStep, stdinBranch_ok_line]

/-- C3: the fork digest is a pure function of the fork name given by a
closed table, distinct fork names receive distinct digests, and the topic
list derived for a fork is non-empty and identical across repeated calls;
`gossipsub_topics` is that list at the default fork. -/
theorem fork_digest_injective_topics_nonempty (f g : ForkName) :
    (f ≠ g → forkDigestFrom f ≠ forkDigestFrom g) ∧
      topics_for f ≠ [] ∧
      topics_for f = topics_for f ∧
      gossipsub_topics = topics_for default_fork := by
  refine ⟨?_, ?_, rfl, rfl⟩
  · cases f <;> cases g <;> intro hne <;> first
      | exact absurd rfl hne
      | decide
  · cases f <;> decide

/-- Witness for C3 at the concrete pair (Base, Altair). -/
theorem fork_digest_injective_topics_nonempty_witness :
    forkDigestFrom .base ≠ forkDigestFrom .altair ∧ topics_for .base ≠ [] :=
  ⟨(fork_digest_injective_topics_nonempty .base .altair).1 (by decide),
   (fork_digest_injective_topics_nonempty .base .altair).2.1⟩

/-- C4: the computed message id reads only the payload bytes — two
messages with identical `data` receive identical ids, whatever their
topic, sender or sequence number. -/
theorem message_id_depends_only_on_payload (m1 m2 : GossipMessage)
    (h : m1.data = m2.data) :
    message_id_fn m1 = message_id_fn m2 := by
  simp [message_id_fn, h]

/-- Witness for C4: same payload, different sender and topic. -/
theorem message_id_depends_only_on_payload_witness :
    (GossipMessage.mk (some 1) [104, 105] (some 7) "topicA").data =
        (GossipMessage.mk (some 2) [104, 105] none "topicB").data ∧
      message_id_fn (GossipMessage.mk (some 1) [104, 105] (some 7) "topicA") =
        message_id_fn (GossipMessage.mk (some 2) [104, 105] none "topicB") :=
  ⟨rfl, message_id_depends_only_on_payload _ _ rfl⟩

/-- C5: exactly when both address lists are empty the node listens on the
two default ephemeral addresses (QUIC on UDP and TCP, both on 0.0.0.0)
and dials nothing; otherwise it listens on exactly the given listen
addresses and dials exactly the given dial addresses. -/
theorem listen_dial_setup_spec (l d : List Multiaddr) :
    (l = [] ∧ d = [] → setupActions ⟨l, d⟩ = (defaultListenAddrs, [])) ∧
      (¬(l = [] ∧ d = []) → setupActions ⟨l, d⟩ = (l, d)) := by
  constructor
  · rintro ⟨rfl, rfl⟩
    rfl
  · intro h
    cases l with
    | nil =>
      cases d with
      | nil => exact absurd ⟨rfl, rfl⟩ h
      | cons x xs => rfl
    | cons x xs => rfl

/-- Witness for C5 at both branches. -/
theorem listen_dial_setup_spec_witness :
    setupActions ⟨[], []⟩ = (defaultListenAddrs, []) ∧
      setupActions ⟨["/ip4/127.0.0.1/tcp/9000"], []⟩ = (["/ip4/127.0.0.1/tcp/9000"], []) :=
  ⟨(listen_dial_setup_spec [] []).1 ⟨rfl, rfl⟩,
   (listen_dial_setup_spec ["/ip4/127.0.0.1/tcp/9000"] []).2 (by simp)⟩

/-- C6 (code bug): the claim says every initialization failure prints a
single-line description of the form `E<code>: <message>`; but every
`From<...> for ClCatError` conversion in `src/error.rs` is `todo!()`, so
the `?` operator on a malformed listen address panics inside the
conversion and no `ClCatError` — hence no coded message — is ever
produced. Evaluating the failure path at a concrete parse error yields no
output line. -/
theorem init_error_conversion_panics :
    initFailureOutput (.invalid "invalid multiaddr") = none := rfl

/-- C7: validation mode is strict and outbound signing is mandatory
(`MessageAuthenticity::Signed`), and an inbound frame failing signature
validation is dropped at the router boundary: it yields no message, no
loop event, and no received-message log line. -/
theorem strict_validation_drops_unsigned (frame : InboundFrame)
    (h : frame.signatureValid = false) :
    gossipsub_config.validation_mode = .strict ∧
      message_authenticity = .signed ∧
      router_on_receive gossipsub_config frame = none ∧
      ∀ (pub : GossipTopic → String → Except String String) (st : SwarmState),
        receivedMessageLogs pub st frame = [] := by
  refine ⟨rfl, rfl, ?_, ?_⟩
  · simp [router_on_receive, gossipsub_config, h]
  · intro pub st
    simp [receivedMessageLogs, inboundEvents, router_on_receive, gossipsub_config, h]

/-- Witness for C7 at a concrete invalidly signed frame. -/
theorem strict_validation_drops_unsigned_witness :
    router_on_receive gossipsub_config ⟨false, 3, "beacon_block", [1, 2, 3]⟩ = none ∧
      receivedMessageLogs (fun _ _ => Except.ok "id") ⟨∅⟩
        ⟨false, 3, "beacon_block", [1, 2, 3]⟩ = [] :=
  ⟨(strict_validation_drops_unsigned ⟨false, 3, "beacon_block", [1, 2, 3]⟩ rfl).2.2.1,
   (strict_validation_drops_unsigned ⟨false, 3, "beacon_block", [1, 2, 3]⟩ rfl).2.2.2
     (fun _ _ => Except.ok "id") ⟨∅⟩⟩

/-- C8 (counterexample): the claim's round-trip is quantified over every
explicit-peer set `S` and peer `p`; it fails when `p` is already present,
because the add is then a no-op and the remove deletes `p`. For
`S = {0}`, `p = 0`: add-then-remove yields `∅ ≠ S`. -/
theorem explicit_peer_roundtrip_fails_when_present :
    remove_explicit_peer (add_explicit_peer {0} 0) 0 ≠ ({0} : Finset Nat) := by
  decide

/-- C8 (amended): adding then removing a peer that was not already in the
explicit-peer set restores the set exactly; adding an already-present
peer is a no-op, and removing an absent one is a no-op. -/
theorem explicit_peer_ops_spec (S : Finset Nat) (p : Nat) :
    (p ∉ S → remove_explicit_peer (add_explicit_peer S p) p = S) ∧
      (p ∈ S → add_explicit_peer S p = S) ∧
      (p ∉ S → remove_explicit_peer S p = S) := by
  refine ⟨?_, ?_, ?_⟩
  · intro h
    exact Finset.erase_insert h
  · intro h
    exact Finset.insert_eq_self.mpr h
  · intro h
    exact Finset.erase_eq_of_not_mem h

/-- Witness for C8 (amended) at concrete sets and peers. -/
theorem explicit_peer_ops_spec_witness :
    remove_explicit_peer (add_explicit_peer ∅ 0) 0 = (∅ : Finset Nat) ∧
      add_explicit_peer {0} 0 = ({0} : Finset Nat) ∧
      remove_explicit_peer {0} 1 = ({0} : Finset Nat) :=
  ⟨(explicit_peer_ops_spec ∅ 0).1 (by decide),
   (explicit_peer_ops_spec {0} 0).2.1 (by decide),
   (explicit_peer_ops_spec {0} 1).2.2 (by decide)⟩

/-- C9: with no listen address but at least one dial address, the setup
takes the non-default branch, so the node binds no listener at all and
dials exactly the given addresses. -/
theorem dial_only_binds_no_listener (l d : List Multiaddr)
    (hl : l = []) (hd : d ≠ []) :
    (setupActions ⟨l, d⟩).1 = [] ∧ (setupActions ⟨l, d⟩).2 = d := by
  subst hl
  cases d with
  | nil => exact absurd rfl hd
  | cons x xs => exact ⟨rfl, rfl⟩

/-- Witness for C9 at a concrete dial-only invocation. -/
theorem dial_only_binds_no_listener_witness :
    (setupActions ⟨[], ["/ip4/10.0.0.1/tcp/9000"]⟩).1 = [] ∧
      (setupActions ⟨[], ["/ip4/10.0.0.1/tcp/9000"]⟩).2 = ["/ip4/10.0.0.1/tcp/9000"] :=
  dial_only_binds_no_listener [] ["/ip4/10.0.0.1/tcp/9000"] rfl (by simp)

/-- C10: `InnerClCatError` has no variants, so every constructible
`ClCatError` has `inner = None`; hence `source()` is always `None` and
the displayed form is exactly `E<code>: <msg>` — the `due to` branch is
unreachable. -/
theorem clcat_error_inner_always_none (e : ClCatError) :
    e.inner = none ∧ e.source = none ∧
      e.display = "E" ++ toString e.code ++ ": " ++ e.msg := by
  obtain ⟨c, m, inner⟩ := e
  cases inner with
  | none => exact ⟨rfl, rfl, rfl⟩
  | some i => exact nomatch i
